import Mathlib

/-!
Verification of the pushjack APNS client (`src/pushjack/apns.py`) against its
natural-language specification.

The embedding is shallow: bytes are `Nat` (always < 256 where produced),
byte strings are `List Nat`, text is `List Char`, Python's `None` is `Option`,
raised exceptions are `Except`.  Socket reads are modelled by the schedule of
chunks the peer delivers: each `recv` pops the next chunk, truncated to the
requested length; an exhausted schedule models end-of-stream (`recv` returns
the empty byte string).
-/

namespace Pushjack

/-! ## Hexadecimal strings (binascii.unhexlify / encode('hex')) -/

/-- Value of one hexadecimal digit character, `none` for a non-hex character. -/
def hexDigitVal (c : Char) : Option Nat :=
  if 48 ≤ c.toNat ∧ c.toNat ≤ 57 then some (c.toNat - 48)
  else if 97 ≤ c.toNat ∧ c.toNat ≤ 102 then some (c.toNat - 87)
  else if 65 ≤ c.toNat ∧ c.toNat ≤ 70 then some (c.toNat - 55)
  else none

/-- `binascii.unhexlify`: decode a hex string to bytes; `none` models the
`binascii.Error` raised on odd length or a non-hex character. -/
def unhexlify : List Char → Option (List Nat)
  | [] => some []
  | [_] => none
  | a :: b :: rest =>
    match hexDigitVal a, hexDigitVal b, unhexlify rest with
    | some x, some y, some bs => some ((16 * x + y) :: bs)
    | _, _, _ => none

/-- Lower-case hex digit character for a value < 16. -/
def hexChar (n : Nat) : Char :=
  if n < 10 then Char.ofNat (48 + n) else Char.ofNat (87 + n)

/-- Python 2 `bytes.encode('hex')`: lower-case hex encoding of a byte string. -/
def hexlify : List Nat → List Char
  | [] => []
  | b :: rest => hexChar (b / 16) :: hexChar (b % 16) :: hexlify rest

/-- `is_valid_token` (apns.py line 33): true when `unhexlify(token)` succeeds,
its result is truthy (non-empty) and the token has exactly 64 characters. -/
def is_valid_token (token : List Char) : Bool :=
  match unhexlify token with
  | some bs => !bs.isEmpty && token.length == 64
  | none => false

theorem unhexlify_length : ∀ {s : List Char} {bs : List Nat},
    unhexlify s = some bs → 2 * bs.length = s.length
  | [], bs, h => by
    simp only [unhexlify, Option.some.injEq] at h
    subst h; rfl
  | [c], bs, h => by simp [unhexlify] at h
  | a :: b :: rest, bs, h => by
    rw [unhexlify] at h
    rcases ha : hexDigitVal a with _ | x <;> rw [ha] at h
    · simp at h
    rcases hb : hexDigitVal b with _ | y <;> rw [hb] at h
    · simp at h
    rcases hr : unhexlify rest with _ | bs' <;> rw [hr] at h
    · simp at h
    simp only [Option.some.injEq] at h
    subst h
    have := unhexlify_length hr
    simp only [List.length_cons]
    omega

theorem unhexlify_isSome_iff : ∀ (s : List Char),
    (unhexlify s).isSome = true ↔
      s.length % 2 = 0 ∧ ∀ c ∈ s, (hexDigitVal c).isSome = true
  | [] => by simp [unhexlify]
  | [c] => by simp [unhexlify]
  | a :: b :: rest => by
    have ih := unhexlify_isSome_iff rest
    rw [unhexlify]
    constructor
    · intro h
      rcases ha : hexDigitVal a with _ | x <;> rw [ha] at h
      · simp at h
      rcases hb : hexDigitVal b with _ | y <;> rw [hb] at h
      · simp at h
      rcases hr : unhexlify rest with _ | bs' <;> rw [hr] at h
      · simp at h
      refine ⟨?_, ?_⟩
      · have := (ih.mp (by rw [hr]; rfl)).1
        simp only [List.length_cons]
        omega
      · intro c hc
        rcases hc with _ | ⟨_, hc⟩
        · rw [ha]; rfl
        · rcases hc with _ | ⟨_, hc⟩
          · rw [hb]; rfl
          · exact (ih.mp (by rw [hr]; rfl)).2 c hc
    · rintro ⟨hlen, hall⟩
      have ha : (hexDigitVal a).isSome = true := hall a (by simp)
      have hb : (hexDigitVal b).isSome = true := hall b (by simp)
      have hr : (unhexlify rest).isSome = true := by
        rw [ih]
        refine ⟨by simp only [List.length_cons] at hlen; omega, ?_⟩
        intro c hc
        exact hall c (by simp [hc])
      rcases Option.isSome_iff_exists.mp ha with ⟨x, hx⟩
      rcases Option.isSome_iff_exists.mp hb with ⟨y, hy⟩
      rcases Option.isSome_iff_exists.mp hr with ⟨bs, hbs⟩
      rw [hx, hy, hbs]
      rfl

/-- `is_valid_token` holds exactly on 64-character all-hex strings. -/
theorem is_valid_token_iff (token : List Char) :
    is_valid_token token = true ↔
      token.length = 64 ∧ ∀ c ∈ token, (hexDigitVal c).isSome = true := by
  unfold is_valid_token
  constructor
  · intro h
    split at h
    · rename_i bs heq
      simp only [Bool.and_eq_true, beq_iff_eq] at h
      refine ⟨h.2, ?_⟩
      have : (unhexlify token).isSome = true := by rw [heq]; rfl
      exact ((unhexlify_isSome_iff token).mp this).2
    · exact absurd h (by simp)
  · rintro ⟨hlen, hall⟩
    have hsome : (unhexlify token).isSome = true :=
      (unhexlify_isSome_iff token).mpr ⟨by omega, hall⟩
    rcases Option.isSome_iff_exists.mp hsome with ⟨bs, hbs⟩
    rw [hbs]
    have hblen : 2 * bs.length = token.length := unhexlify_length hbs
    simp only [Bool.and_eq_true, beq_iff_eq]
    refine ⟨?_, hlen⟩
    cases bs with
    | nil => simp at hblen; omega
    | cons b bs' => rfl

theorem is_valid_token_unhexlify_length {token : List Char}
    (h : is_valid_token token = true) :
    ∃ bs, unhexlify token = some bs ∧ bs.length = 32 := by
  unfold is_valid_token at h
  split at h
  · rename_i bs heq
    simp only [Bool.and_eq_true, beq_iff_eq] at h
    have := unhexlify_length heq
    exact ⟨bs, heq, by omega⟩
  · exact absurd h (by simp)

/-! ## struct big-endian packing primitives -/

/-- `struct.pack('!H', n)`: 2-byte big-endian encoding (caller ensures n < 2^16). -/
def be16 (n : Nat) : List Nat := [n / 256 % 256, n % 256]

/-- `struct.pack('!I', n)` / `'!L'`: 4-byte big-endian encoding (n < 2^32). -/
def be32 (n : Nat) : List Nat :=
  [n / 16777216 % 256, n / 65536 % 256, n / 256 % 256, n % 256]

/-- Big-endian value of a byte string (`struct.unpack` of `!H`/`!I`/`!L`). -/
def beVal (bs : List Nat) : Nat := bs.foldl (fun acc b => 256 * acc + b) 0

theorem beVal_be16 {n : Nat} (h : n < 65536) : beVal (be16 n) = n := by
  simp only [be16, beVal, List.foldl]
  omega

theorem beVal_be32 {n : Nat} (h : n < 4294967296) : beVal (be32 n) = n := by
  simp only [be32, beVal, List.foldl]
  omega

theorem beVal_singleton (b : Nat) : beVal [b] = b := by simp [beVal]

theorem be16_length (n : Nat) : (be16 n).length = 2 := rfl

theorem be32_length (n : Nat) : (be32 n).length = 4 := rfl

/-! ## pack_frame (apns.py line 195) -/

/-- One frame item as laid out by format `BH{n}s`: a 1-byte item id, a 2-byte
big-endian data length, then the data. -/
def frameItem (itemId : Nat) (data : List Nat) : List Nat :=
  itemId :: be16 data.length ++ data

/-- `pack_frame` (apns.py line 195): `struct.pack('!BIBH{t}sBH{p}sBHIBHIBHB', 2,
frame_len, 1, token_len, token_bin, 2, payload_len, payload, 3, 4, identifier,
4, 4, expiration, 5, 1, priority)` where `frame_len = 3*5 + token_len +
payload_len + 4 + 4 + 1`.  `none` models the exceptions the Python code can
raise: `binascii.Error` from `unhexlify` and `struct.error` when a value does
not fit its format code. -/
def pack_frame (token : List Char) (payload : List Nat)
    (identifier expiration priority : Nat) : Option (List Nat) :=
  match unhexlify token with
  | none => none
  | some token_bin =>
    let token_len := token_bin.length
    let payload_len := payload.length
    let frame_len := 3 * 5 + token_len + payload_len + 4 + 4 + 1
    if token_len < 65536 ∧ payload_len < 65536 ∧ frame_len < 4294967296 ∧
        identifier < 4294967296 ∧ expiration < 4294967296 ∧ priority < 256 then
      some (2 :: be32 frame_len ++
        frameItem 1 token_bin ++
        frameItem 2 payload ++
        frameItem 3 (be32 identifier) ++
        frameItem 4 (be32 expiration) ++
        frameItem 5 [priority])
    else none

theorem pack_frame_eq {token : List Char} {token_bin payload : List Nat}
    {identifier expiration priority : Nat}
    (hbin : unhexlify token = some token_bin) (h32 : token_bin.length = 32)
    (hp : payload.length < 65536)
    (hi : identifier < 4294967296) (he : expiration < 4294967296)
    (hpr : priority < 256) :
    pack_frame token payload identifier expiration priority =
      some (2 :: be32 (3 * 5 + 32 + payload.length + 4 + 4 + 1) ++
        (frameItem 1 token_bin ++ frameItem 2 payload ++
         frameItem 3 (be32 identifier) ++ frameItem 4 (be32 expiration) ++
         frameItem 5 [priority])) := by
  rw [pack_frame, hbin]
  simp only [h32]
  rw [if_pos]
  · rfl
  · refine ⟨by omega, hp, by omega, hi, he, hpr⟩

/-- C3: for a valid token and in-range fields the frame is command byte 2, a
4-byte big-endian total length equal to `3*5 + 32 + len(payload) + 4 + 4 + 1`,
then the five items in order with ids 1..5, and that declared length equals
the sum of the item header+data sizes. -/
theorem pack_frame_structure (token : List Char) (payload : List Nat)
    (identifier expiration priority : Nat)
    (htok : is_valid_token token = true)
    (hp : payload.length < 65536)
    (hi : identifier < 4294967296) (he : expiration < 4294967296)
    (hpr : priority < 256) :
    ∃ token_bin, unhexlify token = some token_bin ∧ token_bin.length = 32 ∧
      pack_frame token payload identifier expiration priority =
        some (2 :: be32 (3 * 5 + 32 + payload.length + 4 + 4 + 1) ++
          (frameItem 1 token_bin ++ frameItem 2 payload ++
           frameItem 3 (be32 identifier) ++ frameItem 4 (be32 expiration) ++
           frameItem 5 [priority])) ∧
      beVal (be32 (3 * 5 + 32 + payload.length + 4 + 4 + 1)) =
        (frameItem 1 token_bin ++ frameItem 2 payload ++
         frameItem 3 (be32 identifier) ++ frameItem 4 (be32 expiration) ++
         frameItem 5 [priority]).length := by
  obtain ⟨token_bin, hbin, hlen⟩ := is_valid_token_unhexlify_length htok
  refine ⟨token_bin, hbin, hlen, pack_frame_eq hbin hlen hp hi he hpr, ?_⟩
  rw [beVal_be32 (by omega)]
  simp only [frameItem, List.length_append, List.length_cons, be16_length,
    be32_length, hlen]
  simp
  omega

/-! ## decode_frame (modelled from the spec) -/

/-- Modelled from the spec: the source has no frame decoder (`decode_frame`
appears only in spec §8); this parses one item per §3, "each item = 1-byte
item id (1..5) + 2-byte big-endian item length + item data", returning the
item data and the remaining bytes. -/
def parseItem (expectedId : Nat) (bs : List Nat) : Option (List Nat × List Nat) :=
  match bs with
  | itemId :: h :: l :: rest =>
    if itemId = expectedId ∧ 256 * h + l ≤ rest.length then
      some (rest.take (256 * h + l), rest.drop (256 * h + l))
    else none
  | _ => none

/-- Modelled from the spec: `decode_frame` is named in §8 but absent from the
source.  Per §3/§6 a frame is a 1-byte command 2, a 4-byte big-endian total
length covering the five items, then items with ids 1..5 in the fixed order
token (32 raw bytes), payload, 4-byte identifier, 4-byte expiration, 1-byte
priority.  Returns the five item data fields, numeric fields as their
big-endian values. -/
def decode_frame (frame : List Nat) :
    Option (List Nat × List Nat × Nat × Nat × Nat) :=
  match frame with
  | cmd :: l3 :: l2 :: l1 :: l0 :: rest =>
    if cmd = 2 ∧ rest.length = beVal [l3, l2, l1, l0] then
      match parseItem 1 rest with
      | none => none
      | some (tok, r1) =>
        match parseItem 2 r1 with
        | none => none
        | some (pay, r2) =>
          match parseItem 3 r2 with
          | none => none
          | some (idb, r3) =>
            match parseItem 4 r3 with
            | none => none
            | some (expb, r4) =>
              match parseItem 5 r4 with
              | none => none
              | some (prib, r5) =>
                if tok.length = 32 ∧ idb.length = 4 ∧ expb.length = 4 ∧
                    prib.length = 1 ∧ r5 = [] then
                  some (tok, pay, beVal idb, beVal expb, beVal prib)
                else none
    else none
  | _ => none

theorem parseItem_frameItem (itemId : Nat) (data tail : List Nat)
    (h : data.length < 65536) :
    parseItem itemId (frameItem itemId data ++ tail) = some (data, tail) := by
  have hx : frameItem itemId data ++ tail =
      itemId :: data.length / 256 % 256 :: data.length % 256 :: (data ++ tail) := by
    simp [frameItem, be16]
  rw [hx, parseItem]
  have hv : 256 * (data.length / 256 % 256) + data.length % 256 = data.length := by
    omega
  rw [if_pos]
  · rw [hv, List.take_left' rfl, List.drop_left' rfl]
  · refine ⟨rfl, ?_⟩
    rw [hv]
    simp

/-- C4: decoding the frame produced by the frame encoder recovers each item
field unchanged — the token item (the token's 32 decoded bytes), the payload,
the identifier, the expiration and the priority all round-trip. -/
theorem decode_frame_pack_frame (token : List Char) (payload : List Nat)
    (identifier expiration priority : Nat)
    (htok : is_valid_token token = true)
    (hp : payload.length < 65536)
    (hi : identifier < 4294967296) (he : expiration < 4294967296)
    (hpr : priority < 256) :
    ∃ token_bin frame, unhexlify token = some token_bin ∧
      pack_frame token payload identifier expiration priority = some frame ∧
      decode_frame frame =
        some (token_bin, payload, identifier, expiration, priority) := by
  obtain ⟨token_bin, hbin, h32⟩ := is_valid_token_unhexlify_length htok
  refine ⟨token_bin, _, hbin, pack_frame_eq hbin h32 hp hi he hpr, ?_⟩
  set L := 3 * 5 + 32 + payload.length + 4 + 4 + 1 with hL
  set items := frameItem 1 token_bin ++ frameItem 2 payload ++
    frameItem 3 (be32 identifier) ++ frameItem 4 (be32 expiration) ++
    frameItem 5 [priority] with hitems
  have hframe : 2 :: be32 L ++ items =
      2 :: L / 16777216 % 256 :: L / 65536 % 256 :: L / 256 % 256 :: L % 256 ::
        items := by
    simp [be32]
  rw [hframe, decode_frame]
  have hlen_items : items.length = L := by
    simp only [hitems, frameItem, List.length_append, List.length_cons,
      be16_length, be32_length, h32]
    simp
    omega
  have hcond : (2 : Nat) = 2 ∧ items.length =
      beVal [L / 16777216 % 256, L / 65536 % 256, L / 256 % 256, L % 256] := by
    refine ⟨rfl, ?_⟩
    have : beVal (be32 L) = L := beVal_be32 (by omega)
    rw [be32] at this
    rw [this, hlen_items]
  rw [if_pos hcond]
  have hsplit : items = frameItem 1 token_bin ++ (frameItem 2 payload ++
      (frameItem 3 (be32 identifier) ++ (frameItem 4 (be32 expiration) ++
        frameItem 5 [priority]))) := by
    simp [hitems, List.append_assoc]
  have p1 := parseItem_frameItem 1 token_bin
    (frameItem 2 payload ++ (frameItem 3 (be32 identifier) ++
      (frameItem 4 (be32 expiration) ++ frameItem 5 [priority]))) (by omega)
  have p2 := parseItem_frameItem 2 payload
    (frameItem 3 (be32 identifier) ++
      (frameItem 4 (be32 expiration) ++ frameItem 5 [priority])) (by omega)
  have p3 := parseItem_frameItem 3 (be32 identifier)
    (frameItem 4 (be32 expiration) ++ frameItem 5 [priority])
    (by rw [be32_length]; omega)
  have p4 := parseItem_frameItem 4 (be32 expiration) (frameItem 5 [priority])
    (by rw [be32_length]; omega)
  have h5 : parseItem 5 (frameItem 5 [priority]) = some ([priority], []) := by
    have := parseItem_frameItem 5 [priority] [] (by simp)
    simpa using this
  rw [hsplit]
  simp only [p1, p2, p3, p4, h5]
  simp [h32, be32_length, beVal_be32 hi, beVal_be32 he, beVal_singleton]

/-! ## Errors and the error-response channel (apns.py line 157) -/

/-- The exceptions the client can raise, distinguished the way the code
distinguishes them (`APNSError` instances by message, `APNSDataOverflow`,
`struct.error`, a non-timeout `ssl.SSLError`).  `serverError` is modelled from
the spec for the absent `exceptions` module: §7 says `raise_apns_server_error`
raises a variant keyed by the status code carrying the offending identifier. -/
inductive APNSErr where
  | invalidTokenFormat
  | dataOverflow
  | errorResponseCommand (found : Nat)
  | serverError (status identifier : Nat)
  | structError
  | sslError
  deriving DecidableEq

/-- Outcome of one blocking `connection.recv`: data delivered (possibly empty,
meaning end-of-stream), a `socket.timeout`, or an `ssl.SSLError` whose message
does or does not contain `'timed out'`. -/
inductive RecvResult where
  | data (bs : List Nat)
  | timedOut
  | sslTimeout
  | sslFailure
  deriving DecidableEq

def APNS_ERROR_RESPONSE_COMMAND : Nat := 8

/-- `struct.unpack('!BBI', data)`: requires exactly 6 bytes, yields the
command byte, status byte and big-endian identifier; `none` models the
`struct.error` raised on any other length. -/
def unpack_BBI (bs : List Nat) : Option (Nat × Nat × Nat) :=
  match bs with
  | [c, s, i3, i2, i1, i0] => some (c, s, beVal [i3, i2, i1, i0])
  | _ => none

/-- The `try` body of `check_errors` after `recv(6)` together with its two
`except` clauses: timeouts are suppressed, a non-timeout SSL error and any
`struct.error` propagate, a decoded response raises on bad command byte or on
a non-zero status. -/
def check_errors_recv_case (recv : RecvResult) : Except APNSErr Unit :=
  match recv with
  | .timedOut => Except.ok ()
  | .sslTimeout => Except.ok ()
  | .sslFailure => Except.error .sslError
  | .data bs =>
    if bs.isEmpty then Except.ok ()
    else
      match unpack_BBI bs with
      | none => Except.error .structError
      | some (command, status, identifier) =>
        if command ≠ APNS_ERROR_RESPONSE_COMMAND then
          Except.error (.errorResponseCommand command)
        else if status ≠ 0 then Except.error (.serverError status identifier)
        else Except.ok ()

instance : DecidableEq (Except APNSErr Unit) := fun a b =>
  match a, b with
  | Except.ok u, Except.ok v =>
    if h : u = v then isTrue (by rw [h]) else isFalse (by intro hc; cases hc; exact h rfl)
  | Except.error e, Except.error f =>
    if h : e = f then isTrue (by rw [h]) else isFalse (by intro hc; cases hc; exact h rfl)
  | Except.ok _, Except.error _ => isFalse (by intro hc; cases hc)
  | Except.error _, Except.ok _ => isFalse (by intro hc; cases hc)

/-- Result of `check_errors`: the returned value or raised exception, the
arguments of the `connection.settimeout` calls it made in order, and how many
`recv` calls it made. -/
structure CheckErrorsResult where
  result : Except APNSErr Unit
  timeoutSets : List (Option Nat)
  recvCalls : Nat
  deriving DecidableEq

/-- `check_errors` (apns.py line 157): `config['APNS_ERROR_TIMEOUT']` is
`error_timeout` (`none` is the `None` sentinel), `connTimeout` is what
`connection.gettimeout()` returns, `recv` is what `connection.recv(6)` does.
When the timeout sentinel is disabled it returns at once; otherwise it sets
the timeout to the configured value, reads, and the `finally` block restores
the saved original timeout on every exit path. -/
def check_errors (error_timeout : Option Nat) (connTimeout : Option Nat)
    (recv : RecvResult) : CheckErrorsResult :=
  match error_timeout with
  | none => ⟨Except.ok (), [], 0⟩
  | some t => ⟨check_errors_recv_case recv, [some t, connTimeout], 1⟩

/-- C9: with the disabled sentinel `check_errors` performs no read and touches
no timeout; otherwise its last `settimeout` call restores the saved original
connection timeout, whatever the read returned — normal return, timeout with
no data, or a raised error. -/
theorem check_errors_timeout_discipline (connTimeout : Option Nat)
    (recv : RecvResult) (t : Nat) :
    (check_errors none connTimeout recv).recvCalls = 0 ∧
    (check_errors none connTimeout recv).timeoutSets = [] ∧
    (check_errors (some t) connTimeout recv).timeoutSets.getLast? =
      some connTimeout := by
  refine ⟨rfl, rfl, ?_⟩
  simp [check_errors]

/-- C7: on a 6-byte error response, a command byte other than 8 always raises
the protocol error naming the found command, whatever the other bytes are;
command byte 8 with status byte 0 raises nothing. -/
theorem check_errors_decode_response (b0 b1 b2 b3 b4 b5 : Nat)
    (connTimeout : Option Nat) (t : Nat) :
    (b0 ≠ 8 →
      (check_errors (some t) connTimeout (.data [b0, b1, b2, b3, b4, b5])).result
        = Except.error (.errorResponseCommand b0)) ∧
    (check_errors (some t) connTimeout (.data [8, 0, b2, b3, b4, b5])).result
      = Except.ok () := by
  constructor
  · intro h
    simp [check_errors, check_errors_recv_case, unpack_BBI,
      APNS_ERROR_RESPONSE_COMMAND, h]
  · simp [check_errors, check_errors_recv_case, unpack_BBI,
      APNS_ERROR_RESPONSE_COMMAND]

/-- C10: a read of 1 to 5 bytes is fed to the fixed 6-byte unpack unchecked,
so `check_errors` propagates an unhandled `struct.error` instead of treating
it as "no response" or as a typed protocol error. -/
theorem check_errors_short_read (bs : List Nat) (connTimeout : Option Nat)
    (t : Nat) (h1 : 1 ≤ bs.length) (h2 : bs.length ≤ 5) :
    (check_errors (some t) connTimeout (.data bs)).result =
      Except.error .structError := by
  rcases bs with _ | ⟨a, _ | ⟨b, _ | ⟨c, _ | ⟨d, _ | ⟨e, _ | ⟨f, rest⟩⟩⟩⟩⟩⟩
  · simp at h1
  · rfl
  · rfl
  · rfl
  · rfl
  · rfl
  · simp only [List.length_cons] at h2
    omega

theorem check_errors_no_validation_error (error_timeout connTimeout : Option Nat)
    (recv : RecvResult) :
    (check_errors error_timeout connTimeout recv).result ≠
        Except.error .dataOverflow ∧
      (check_errors error_timeout connTimeout recv).result ≠
        Except.error .invalidTokenFormat := by
  cases error_timeout with
  | none => exact ⟨by simp [check_errors], by simp [check_errors]⟩
  | some t =>
    simp only [check_errors]
    cases recv with
    | timedOut => exact ⟨by simp [check_errors_recv_case], by simp [check_errors_recv_case]⟩
    | sslTimeout => exact ⟨by simp [check_errors_recv_case], by simp [check_errors_recv_case]⟩
    | sslFailure => exact ⟨by simp [check_errors_recv_case], by simp [check_errors_recv_case]⟩
    | data bs =>
      simp only [check_errors_recv_case]
      split
      · simp
      · rcases unpack_BBI bs with _ | ⟨cmd, st, ident⟩
        · simp
        · simp only []
          split
          · simp
          · split <;> simp

/-! ## send and send_bulk (apns.py lines 263 and 305) -/

/-- Externally visible effects of a send, in order of occurrence:
building the payload with `create_payload`, opening the push socket,
writing one frame on the connection, calling `check_errors`, closing. -/
inductive Event where
  | buildPayload
  | openPushSocket
  | writeFrame (identifier : Nat) (frame : List Nat)
  | checkErrors
  | closeConn
  deriving DecidableEq

/-- Part of the configuration dict `send` reads:
`APNS_MAX_NOTIFICATION_SIZE`, `APNS_DEFAULT_EXPIRATION_OFFSET`,
`APNS_ERROR_TIMEOUT` (`none` being the disabled `None` sentinel). -/
structure APNSConfig where
  max_notification_size : Nat
  default_expiration_offset : Nat
  error_timeout : Option Nat

/-- `expiration if expiration is not None else int(time.time()) + offset`
(apns.py line 288). -/
def expirationTime (expiration : Option Nat) (now offset : Nat) : Nat :=
  match expiration with
  | some e => e
  | none => now + offset

/-- `send` (apns.py line 263), returning the raised exception or unit together
with the trace of its effects.  `alertPayload` stands for the value
`create_payload(alert, **options)` would produce (payload construction is
outside the verified core); `now` is `int(time.time())`; `connTimeout` and
`recv` describe the fresh single-use connection taken when no connection is
supplied.  The order mirrors the source: token validation, payload build,
size check, frame packing, then either a bare write on the supplied
connection, or open/write/check_errors on a fresh connection closed on every
exit path. -/
def send (token : List Char) (alertPayload : List Nat) (cfg : APNSConfig)
    (identifier : Nat) (expiration : Option Nat) (priority : Nat)
    (payload : Option (List Nat)) (hasConnection : Bool)
    (now : Nat) (connTimeout : Option Nat) (recv : RecvResult) :
    Except APNSErr Unit × List Event :=
  if is_valid_token token = false then (Except.error .invalidTokenFormat, [])
  else
    let pe : List Nat × List Event :=
      match payload with
      | none => (alertPayload, [Event.buildPayload])
      | some p => (p, [])
    if pe.1.length > cfg.max_notification_size then
      (Except.error .dataOverflow, pe.2)
    else
      match pack_frame token pe.1 identifier
          (expirationTime expiration now cfg.default_expiration_offset)
          priority with
      | none => (Except.error .structError, pe.2)
      | some frame =>
        if hasConnection then
          (Except.ok (), pe.2 ++ [Event.writeFrame identifier frame])
        else
          ((check_errors cfg.error_timeout connTimeout recv).result,
           pe.2 ++ [Event.openPushSocket, Event.writeFrame identifier frame,
             Event.checkErrors, Event.closeConn])

/-- The `for identifier, token in enumerate(tokens)` loop of `send_bulk`:
each iteration calls `send` with the supplied connection, the shared payload
and the position as identifier; the first raised exception aborts the loop. -/
def send_bulk_loop (alertPayload payload : List Nat) (cfg : APNSConfig)
    (expiration : Option Nat) (priority : Nat) (now : Nat)
    (connTimeout : Option Nat) (recv : RecvResult) :
    Nat → List (List Char) → Except APNSErr Unit × List Event
  | _, [] => (Except.ok (), [])
  | i, token :: rest =>
    match send token alertPayload cfg i expiration priority (some payload) true
        now connTimeout recv with
    | (Except.ok _, ev) =>
      let r := send_bulk_loop alertPayload payload cfg expiration priority now
        connTimeout recv (i + 1) rest
      (r.1, ev ++ r.2)
    | (Except.error e, ev) => (Except.error e, ev)

/-- `send_bulk` (apns.py line 305): builds the payload once when none is
supplied, opens one push socket, runs the enumerate loop, and only when the
loop finishes calls `check_errors` once; `closing` closes the connection on
every exit path. -/
def send_bulk (tokens : List (List Char)) (alertPayload : List Nat)
    (cfg : APNSConfig) (payload : Option (List Nat))
    (expiration : Option Nat) (priority : Nat) (now : Nat)
    (connTimeout : Option Nat) (recv : RecvResult) :
    Except APNSErr Unit × List Event :=
  let pe : List Nat × List Event :=
    match payload with
    | none => (alertPayload, [Event.buildPayload])
    | some p => (p, [])
  let r := send_bulk_loop alertPayload pe.1 cfg expiration priority now
    connTimeout recv 0 tokens
  match r.1 with
  | Except.ok _ =>
    ((check_errors cfg.error_timeout connTimeout recv).result,
     pe.2 ++ Event.openPushSocket :: r.2 ++ [Event.checkErrors, Event.closeConn])
  | Except.error e =>
    (Except.error e, pe.2 ++ Event.openPushSocket :: r.2 ++ [Event.closeConn])

/-- C5: `send` raises the invalid-token validation error, with nothing done
before it, exactly when the token is not a 64-character string of valid
hexadecimal digits. -/
theorem send_invalid_token_iff (token : List Char) (alertPayload : List Nat)
    (cfg : APNSConfig) (identifier : Nat) (expiration : Option Nat)
    (priority : Nat) (payload : Option (List Nat)) (hasConnection : Bool)
    (now : Nat) (connTimeout : Option Nat) (recv : RecvResult) :
    send token alertPayload cfg identifier expiration priority payload
        hasConnection now connTimeout recv =
      (Except.error .invalidTokenFormat, []) ↔
    ¬(token.length = 64 ∧ ∀ c ∈ token, (hexDigitVal c).isSome = true) := by
  rw [← is_valid_token_iff]
  constructor
  · intro h hv
    rw [send.eq_def, hv] at h
    simp only [Bool.true_eq_false, if_false] at h
    split at h
    · simp at h
    · split at h
      · rename_i heq
        rcases payload with _ | p <;> simp at h
      · rename_i frame heq
        split at h
        · simp at h
        · rcases payload with _ | p <;> simp at h
  · intro h
    rw [send.eq_def]
    have : is_valid_token token = false := by
      cases hv : is_valid_token token
      · rfl
      · exact absurd hv h
    rw [this]
    simp

/-- C6: with a valid token, a supplied payload of exactly the configured
maximum size is not rejected as oversize, while one byte more raises
`DataOverflow` with nothing yet done — in particular no frame was encoded or
written, and the check used the raw payload length even though the assembled
frame is longer than the maximum. -/
theorem send_max_size_boundary (token : List Char) (alertPayload : List Nat)
    (cfg : APNSConfig) (identifier : Nat) (expiration : Option Nat)
    (priority : Nat) (payload : List Nat) (hasConnection : Bool)
    (now : Nat) (connTimeout : Option Nat) (recv : RecvResult)
    (htok : is_valid_token token = true) :
    (payload.length = cfg.max_notification_size →
      (send token alertPayload cfg identifier expiration priority
          (some payload) hasConnection now connTimeout recv).1 ≠
        Except.error .dataOverflow) ∧
    (payload.length = cfg.max_notification_size + 1 →
      send token alertPayload cfg identifier expiration priority
          (some payload) hasConnection now connTimeout recv =
        (Except.error .dataOverflow, [])) := by
  constructor
  · intro hlen
    rw [send.eq_def, htok]
    simp only [Bool.true_eq_false, if_false]
    rw [if_neg (by simp [hlen])]
    split
    · simp
    · split
      · simp
      · exact (check_errors_no_validation_error cfg.error_timeout
          connTimeout recv).1
  · intro hlen
    rw [send.eq_def, htok]
    simp only [Bool.true_eq_false, if_false]
    rw [if_pos (by simp [hlen])]

theorem send_on_connection {token : List Char} {payload : List Nat}
    (alertPayload : List Nat) (cfg : APNSConfig) (i : Nat)
    (expiration : Option Nat) (priority now : Nat)
    (connTimeout : Option Nat) (recv : RecvResult)
    (htok : is_valid_token token = true)
    (hsize : payload.length ≤ cfg.max_notification_size)
    (hp16 : payload.length < 65536) (hi : i < 4294967296)
    (hexp : expirationTime expiration now cfg.default_expiration_offset <
      4294967296)
    (hpr : priority < 256) :
    ∃ frame,
      pack_frame token payload i
        (expirationTime expiration now cfg.default_expiration_offset) priority
        = some frame ∧
      send token alertPayload cfg i expiration priority (some payload) true
          now connTimeout recv = (Except.ok (), [Event.writeFrame i frame]) := by
  obtain ⟨tb, hbin, h32⟩ := is_valid_token_unhexlify_length htok
  have hpack := pack_frame_eq hbin h32 hp16 hi hexp hpr
  refine ⟨_, hpack, ?_⟩
  rw [send.eq_def, htok]
  simp only [Bool.true_eq_false, if_false, hpack]
  rw [if_neg (by omega)]
  simp

theorem send_invalid_token {token : List Char}
    (hbad : is_valid_token token = false) (alertPayload : List Nat)
    (cfg : APNSConfig) (i : Nat) (expiration : Option Nat) (priority : Nat)
    (payload : Option (List Nat)) (hasConnection : Bool) (now : Nat)
    (connTimeout : Option Nat) (recv : RecvResult) :
    send token alertPayload cfg i expiration priority payload hasConnection
      now connTimeout recv = (Except.error .invalidTokenFormat, []) := by
  rw [send.eq_def, hbad]
  simp

/-- The frame the loop writes for position `i` and token `tk`, given the
shared payload and expiration. -/
def loopFrame (payload : List Nat) (expTime priority : Nat)
    (p : Nat × List Char) : Event :=
  Event.writeFrame p.1
    ((pack_frame p.2 payload p.1 expTime priority).getD [])

theorem send_bulk_loop_ok (alertPayload payload : List Nat) (cfg : APNSConfig)
    (expiration : Option Nat) (priority now : Nat) (connTimeout : Option Nat)
    (recv : RecvResult)
    (hsize : payload.length ≤ cfg.max_notification_size)
    (hp16 : payload.length < 65536)
    (hexp : expirationTime expiration now cfg.default_expiration_offset <
      4294967296)
    (hpr : priority < 256) :
    ∀ (tokens : List (List Char)) (i : Nat),
      (∀ tk ∈ tokens, is_valid_token tk = true) →
      i + tokens.length ≤ 4294967296 →
      send_bulk_loop alertPayload payload cfg expiration priority now
          connTimeout recv i tokens =
        (Except.ok (), (tokens.enumFrom i).map
          (loopFrame payload
            (expirationTime expiration now cfg.default_expiration_offset)
            priority))
  | [], i, _, _ => by simp [send_bulk_loop]
  | token :: rest, i, hvalid, hN => by
    obtain ⟨frame, hpack, hsend⟩ := send_on_connection alertPayload cfg i
      expiration priority now connTimeout recv (hvalid token (by simp)) hsize
      hp16 (by simp only [List.length_cons] at hN; omega) hexp hpr
    rw [send_bulk_loop, hsend]
    have ih := send_bulk_loop_ok alertPayload payload cfg expiration priority
      now connTimeout recv hsize hp16 hexp hpr rest (i + 1)
      (fun tk htk => hvalid tk (by simp [htk]))
      (by simp only [List.length_cons] at hN; omega)
    simp only [ih, List.enumFrom_cons, List.map_cons]
    simp [loopFrame, hpack]

theorem send_bulk_loop_first_invalid (alertPayload payload : List Nat)
    (cfg : APNSConfig) (expiration : Option Nat) (priority now : Nat)
    (connTimeout : Option Nat) (recv : RecvResult)
    (hsize : payload.length ≤ cfg.max_notification_size)
    (hp16 : payload.length < 65536)
    (hexp : expirationTime expiration now cfg.default_expiration_offset <
      4294967296)
    (hpr : priority < 256) :
    ∀ (pre : List (List Char)) (bad : List Char) (rest : List (List Char))
      (i : Nat),
      (∀ tk ∈ pre, is_valid_token tk = true) →
      is_valid_token bad = false →
      i + pre.length < 4294967296 →
      send_bulk_loop alertPayload payload cfg expiration priority now
          connTimeout recv i (pre ++ bad :: rest) =
        (Except.error .invalidTokenFormat, (pre.enumFrom i).map
          (loopFrame payload
            (expirationTime expiration now cfg.default_expiration_offset)
            priority))
  | [], bad, rest, i, _, hbad, _ => by
    rw [List.nil_append, send_bulk_loop,
      send_invalid_token hbad alertPayload cfg i expiration priority
        (some payload) true now connTimeout recv]
    simp
  | tk :: pre, bad, rest, i, hvalid, hbad, hN => by
    obtain ⟨frame, hpack, hsend⟩ := send_on_connection alertPayload cfg i
      expiration priority now connTimeout recv (hvalid tk (by simp)) hsize
      hp16 (by simp only [List.length_cons] at hN; omega) hexp hpr
    rw [List.cons_append, send_bulk_loop, hsend]
    have ih := send_bulk_loop_first_invalid alertPayload payload cfg expiration
      priority now connTimeout recv hsize hp16 hexp hpr pre bad rest (i + 1)
      (fun t ht => hvalid t (by simp [ht])) hbad
      (by simp only [List.length_cons] at hN; omega)
    simp only [ih, List.enumFrom_cons, List.map_cons]
    simp [loopFrame, hpack]

/-- Identifiers of the frames written, in write order. -/
def writeIdentifiers (evs : List Event) : List Nat :=
  evs.filterMap fun e =>
    match e with
    | Event.writeFrame i _ => some i
    | _ => none

/-- C8: over N valid tokens `send_bulk` builds the payload once, opens one
connection, writes one frame per token with the shared payload and the
zero-based position as identifier, in ascending order, and performs a single
`check_errors` only after every frame is written; no per-frame error check
happens inside the loop. -/
theorem send_bulk_batch (tokens : List (List Char)) (alertPayload : List Nat)
    (cfg : APNSConfig) (expiration : Option Nat) (priority now : Nat)
    (connTimeout : Option Nat) (recv : RecvResult)
    (hvalid : ∀ tk ∈ tokens, is_valid_token tk = true)
    (hsize : alertPayload.length ≤ cfg.max_notification_size)
    (hp16 : alertPayload.length < 65536)
    (hN : tokens.length ≤ 4294967296)
    (hexp : expirationTime expiration now cfg.default_expiration_offset <
      4294967296)
    (hpr : priority < 256) :
    send_bulk tokens alertPayload cfg none expiration priority now connTimeout
        recv =
      ((check_errors cfg.error_timeout connTimeout recv).result,
       Event.buildPayload :: Event.openPushSocket ::
         ((tokens.enumFrom 0).map
           (loopFrame alertPayload
             (expirationTime expiration now cfg.default_expiration_offset)
             priority) ++
          [Event.checkErrors, Event.closeConn])) ∧
    writeIdentifiers
        (send_bulk tokens alertPayload cfg none expiration priority now
          connTimeout recv).2 = List.range tokens.length := by
  have hloop := send_bulk_loop_ok alertPayload alertPayload cfg expiration
    priority now connTimeout recv hsize hp16 hexp hpr tokens 0
    hvalid (by omega)
  have htrace : send_bulk tokens alertPayload cfg none expiration priority now
      connTimeout recv =
      ((check_errors cfg.error_timeout connTimeout recv).result,
       Event.buildPayload :: Event.openPushSocket ::
         ((tokens.enumFrom 0).map
           (loopFrame alertPayload
             (expirationTime expiration now cfg.default_expiration_offset)
             priority) ++
          [Event.checkErrors, Event.closeConn])) := by
    rw [send_bulk]
    simp only [hloop]
    simp
  refine ⟨htrace, ?_⟩
  rw [htrace]
  simp only [writeIdentifiers, List.filterMap_cons, List.filterMap_append,
    List.filterMap_map]
  have hcomp : ((fun e =>
      match e with
      | Event.writeFrame i _ => some i
      | _ => none) ∘
      loopFrame alertPayload
        (expirationTime expiration now cfg.default_expiration_offset)
        priority) = some ∘ Prod.fst := rfl
  rw [hcomp, List.filterMap_eq_map]
  simp [List.enumFrom_map_fst, List.range_eq_range']

theorem send_cases (token : List Char) (alertPayload : List Nat)
    (cfg : APNSConfig) (identifier : Nat) (expiration : Option Nat)
    (priority : Nat) (payload : Option (List Nat)) (hasConnection : Bool)
    (now : Nat) (connTimeout : Option Nat) (recv : RecvResult) :
    send token alertPayload cfg identifier expiration priority payload
        hasConnection now connTimeout recv =
      (Except.error .invalidTokenFormat, []) ∨
    ∃ ev0, (ev0 = [] ∨ ev0 = [Event.buildPayload]) ∧
      (send token alertPayload cfg identifier expiration priority payload
          hasConnection now connTimeout recv =
        (Except.error .dataOverflow, ev0) ∨
       send token alertPayload cfg identifier expiration priority payload
          hasConnection now connTimeout recv =
        (Except.error .structError, ev0) ∨
       ∃ frame,
         send token alertPayload cfg identifier expiration priority payload
            hasConnection now connTimeout recv =
          (Except.ok (), ev0 ++ [Event.writeFrame identifier frame]) ∨
         send token alertPayload cfg identifier expiration priority payload
            hasConnection now connTimeout recv =
          ((check_errors cfg.error_timeout connTimeout recv).result,
           ev0 ++ [Event.openPushSocket, Event.writeFrame identifier frame,
             Event.checkErrors, Event.closeConn])) := by
  rw [send.eq_def]
  cases hv : is_valid_token token
  · left
    simp
  · right
    simp only [Bool.true_eq_false, if_false]
    rcases payload with _ | p
    · refine ⟨[Event.buildPayload], Or.inr rfl, ?_⟩
      split
      · left; rfl
      · rcases hpk : pack_frame token alertPayload identifier
            (expirationTime expiration now cfg.default_expiration_offset)
            priority with _ | frame
        · right; left; rfl
        · right; right
          refine ⟨frame, ?_⟩
          cases hasConnection
          · right; rfl
          · left; rfl
    · refine ⟨[], Or.inl rfl, ?_⟩
      split
      · left; rfl
      · rcases hpk : pack_frame token p identifier
            (expirationTime expiration now cfg.default_expiration_offset)
            priority with _ | frame
        · right; left; rfl
        · right; right
          refine ⟨frame, ?_⟩
          cases hasConnection
          · right; simp
          · left; simp

theorem send_oversize {p : List Nat} (cfg : APNSConfig)
    (h : p.length > cfg.max_notification_size) (token : List Char)
    (alertPayload : List Nat) (i : Nat) (expiration : Option Nat)
    (priority : Nat) (hasConnection : Bool) (now : Nat)
    (connTimeout : Option Nat) (recv : RecvResult) :
    send token alertPayload cfg i expiration priority (some p) hasConnection
        now connTimeout recv = (Except.error .invalidTokenFormat, []) ∨
    send token alertPayload cfg i expiration priority (some p) hasConnection
        now connTimeout recv = (Except.error .dataOverflow, []) := by
  cases hv : is_valid_token token
  · exact Or.inl (send_invalid_token hv alertPayload cfg i expiration priority
      (some p) hasConnection now connTimeout recv)
  · right
    rw [send.eq_def, hv]
    simp only [Bool.true_eq_false, if_false]
    rw [if_pos (by simpa using h)]

/-- C1 counterexample: `send_bulk` with a single malformed token raises the
invalid-token validation error, yet the push connection has already been
opened — network I/O precedes the validation error. -/
theorem send_bulk_opens_before_validation :
    (send_bulk [[]] [] ⟨2048, 2592000, none⟩ (some []) none 10 0 none
      (RecvResult.data [])).1 = Except.error APNSErr.invalidTokenFormat ∧
    Event.openPushSocket ∈
      (send_bulk [[]] [] ⟨2048, 2592000, none⟩ (some []) none 10 0 none
        (RecvResult.data [])).2 := by
  decide

/-- C1 amended: in `send`, a malformed token or an oversize payload is
rejected before any network I/O — at most the payload build precedes the
error.  In `send_bulk` the shared payload is built first, but the single
connection is opened before any token is validated: with the first invalid
token at position k, the invalid-token error is raised after the connection
is open and after frames for positions 0..k-1 were written, and no frame for
position k or later is written and no error check runs; likewise an oversize
shared payload is detected only after the connection is opened, before any
frame is written. -/
theorem validation_vs_io_amended :
    (∀ (token : List Char) (alertPayload : List Nat) (cfg : APNSConfig)
       (identifier : Nat) (expiration : Option Nat) (priority : Nat)
       (payload : Option (List Nat)) (hasConnection : Bool) (now : Nat)
       (connTimeout : Option Nat) (recv : RecvResult),
       ((send token alertPayload cfg identifier expiration priority payload
           hasConnection now connTimeout recv).1 =
            Except.error .invalidTokenFormat ∨
        (send token alertPayload cfg identifier expiration priority payload
           hasConnection now connTimeout recv).1 =
            Except.error .dataOverflow) →
       ((send token alertPayload cfg identifier expiration priority payload
           hasConnection now connTimeout recv).2 = [] ∨
        (send token alertPayload cfg identifier expiration priority payload
           hasConnection now connTimeout recv).2 = [Event.buildPayload])) ∧
    (∀ (pre : List (List Char)) (bad : List Char) (rest : List (List Char))
       (alertPayload : List Nat) (cfg : APNSConfig) (expiration : Option Nat)
       (priority now : Nat) (connTimeout : Option Nat) (recv : RecvResult),
       (∀ tk ∈ pre, is_valid_token tk = true) →
       is_valid_token bad = false →
       alertPayload.length ≤ cfg.max_notification_size →
       alertPayload.length < 65536 →
       pre.length < 4294967296 →
       expirationTime expiration now cfg.default_expiration_offset <
         4294967296 →
       priority < 256 →
       send_bulk (pre ++ bad :: rest) alertPayload cfg none expiration
           priority now connTimeout recv =
         (Except.error .invalidTokenFormat,
          Event.buildPayload :: Event.openPushSocket ::
            ((pre.enumFrom 0).map
              (loopFrame alertPayload
                (expirationTime expiration now cfg.default_expiration_offset)
                priority) ++ [Event.closeConn]))) ∧
    (∀ (tk : List Char) (rest : List (List Char)) (alertPayload : List Nat)
       (cfg : APNSConfig) (expiration : Option Nat) (priority now : Nat)
       (connTimeout : Option Nat) (recv : RecvResult),
       alertPayload.length > cfg.max_notification_size →
       (((send_bulk (tk :: rest) alertPayload cfg none expiration priority now
            connTimeout recv).1 = Except.error .invalidTokenFormat ∨
         (send_bulk (tk :: rest) alertPayload cfg none expiration priority now
            connTimeout recv).1 = Except.error .dataOverflow) ∧
        (send_bulk (tk :: rest) alertPayload cfg none expiration priority now
           connTimeout recv).2 =
          [Event.buildPayload, Event.openPushSocket, Event.closeConn])) := by
  refine ⟨?_, ?_, ?_⟩
  · intro token alertPayload cfg identifier expiration priority payload
      hasConnection now connTimeout recv h
    rcases send_cases token alertPayload cfg identifier expiration priority
        payload hasConnection now connTimeout recv with
      hcase | ⟨ev0, hev0, hcase | hcase | ⟨frame, hcase | hcase⟩⟩
    · left; rw [hcase]
    · rcases hev0 with he | he
      · left; rw [hcase, he]
      · right; rw [hcase, he]
    · rw [hcase] at h
      simp at h
    · rw [hcase] at h
      simp at h
    · rw [hcase] at h
      simp only [] at h
      rcases h with h | h
      · exact absurd h (check_errors_no_validation_error cfg.error_timeout
          connTimeout recv).2
      · exact absurd h (check_errors_no_validation_error cfg.error_timeout
          connTimeout recv).1
  · intro pre bad rest alertPayload cfg expiration priority now connTimeout
      recv hvalid hbad hsize hp16 hN hexp hpr
    have hloop := send_bulk_loop_first_invalid alertPayload alertPayload cfg
      expiration priority now connTimeout recv hsize hp16 hexp hpr pre bad
      rest 0 hvalid hbad (by omega)
    rw [send_bulk]
    simp only [hloop]
    simp
  · intro tk rest alertPayload cfg expiration priority now connTimeout recv hov
    rcases send_oversize cfg hov tk alertPayload 0 expiration priority true now
        connTimeout recv with hs | hs
    · have hloop : send_bulk_loop alertPayload alertPayload cfg expiration
          priority now connTimeout recv 0 (tk :: rest) =
          (Except.error .invalidTokenFormat, []) := by
        rw [send_bulk_loop, hs]
      rw [send_bulk]
      simp [hloop]
    · have hloop : send_bulk_loop alertPayload alertPayload cfg expiration
          priority now connTimeout recv 0 (tk :: rest) =
          (Except.error .dataOverflow, []) := by
        rw [send_bulk_loop, hs]
      rw [send_bulk]
      simp [hloop]

/-! ## Feedback stream (apns.py lines 216 and 227) -/

/-- `receive_feedback` (apns.py line 227) over a schedule of read chunks:
each loop turn calls `read_and_unpack` with the 6-byte `'!LH'` header format
(a `recv(6)` followed, when data arrived, by `struct.unpack_from`), then with
the `'{n}s'` token format.  An empty header read ends the loop; an empty token
read skips the record and loops again; a record's token is hex-encoded with
the timestamp.  `Except.error ()` models the `struct.error` that
`struct.unpack_from` raises when the received data is shorter than the
format — only timeouts are caught by the surrounding `try`. -/
def receive_feedback : List (List Nat) → Except Unit (List (List Char × Nat))
  | [] => Except.ok []
  | [c] =>
    if (c.take 6).isEmpty then Except.ok []
    else if (c.take 6).length < 6 then Except.error ()
    else Except.ok []
  | c :: b :: rest2 =>
    if (c.take 6).isEmpty then Except.ok []
    else if (c.take 6).length < 6 then Except.error ()
    else
      let timestamp := beVal ((c.take 6).take 4)
      let token_length := beVal ((c.take 6).drop 4)
      if (b.take token_length).isEmpty then receive_feedback rest2
      else if (b.take token_length).length < token_length then Except.error ()
      else
        match receive_feedback rest2 with
        | Except.ok records =>
          Except.ok ((hexlify (b.take token_length), timestamp) :: records)
        | Except.error e => Except.error e

/-- C2 counterexample: a partial read of one byte at the 6-byte header
position is not treated as end-of-stream — the fixed-size unpack raises an
unhandled error instead of terminating the sequence. -/
theorem receive_feedback_partial_read_raises :
    receive_feedback [[0]] = Except.error () := rfl

/-- A schedule prefix of well-formed records: for each record a 6-byte header
chunk `be32 timestamp ++ be16 token_length` followed by one full token chunk. -/
def goodChunks : List (Nat × List Nat) → List (List Nat)
  | [] => []
  | (ts, tok) :: rest => (be32 ts ++ be16 tok.length) :: tok :: goodChunks rest

/-- The records that schedule prefix decodes to. -/
def goodRecords : List (Nat × List Nat) → List (List Char × Nat)
  | [] => []
  | (ts, tok) :: rest => (hexlify tok, ts) :: goodRecords rest

theorem header_chunk_eq (ts n : Nat) :
    (be32 ts ++ be16 n : List Nat) =
      [ts / 16777216 % 256, ts / 65536 % 256, ts / 256 % 256, ts % 256,
       n / 256 % 256, n % 256] := by
  simp [be32, be16]

theorem receive_feedback_record_step (ts : Nat) (tok : List Nat)
    (reads : List (List Nat)) (hts : ts < 4294967296)
    (hn : tok.length < 65536) (h1 : 1 ≤ tok.length) :
    receive_feedback ((be32 ts ++ be16 tok.length) :: tok :: reads) =
      match receive_feedback reads with
      | Except.ok rs => Except.ok ((hexlify tok, ts) :: rs)
      | Except.error e => Except.error e := by
  have hts' : beVal [ts / 16777216 % 256, ts / 65536 % 256, ts / 256 % 256,
      ts % 256] = ts := by
    have : beVal (be32 ts) = ts := beVal_be32 hts
    rw [be32] at this
    exact this
  have htl' : beVal [tok.length / 256 % 256, tok.length % 256] =
      tok.length := by
    have : beVal (be16 tok.length) = tok.length := beVal_be16 hn
    rw [be16] at this
    exact this
  rw [header_chunk_eq]
  simp only [receive_feedback]
  rw [if_neg (by simp), if_neg (by simp)]
  have e1 : (([ts / 16777216 % 256, ts / 65536 % 256, ts / 256 % 256,
      ts % 256, tok.length / 256 % 256, tok.length % 256] : List Nat).take
      6).take 4 =
      [ts / 16777216 % 256, ts / 65536 % 256, ts / 256 % 256, ts % 256] := rfl
  have e2 : (([ts / 16777216 % 256, ts / 65536 % 256, ts / 256 % 256,
      ts % 256, tok.length / 256 % 256, tok.length % 256] : List Nat).take
      6).drop 4 = [tok.length / 256 % 256, tok.length % 256] := rfl
  simp only [e1, e2, hts', htl']
  rw [List.take_length tok]
  rw [if_neg (by
    intro hemp
    rw [List.isEmpty_iff] at hemp
    rw [hemp] at h1
    simp at h1)]
  rw [if_neg (by omega)]

theorem receive_feedback_empty_header (reads : List (List Nat)) :
    receive_feedback ([] :: reads) = Except.ok [] := by
  cases reads <;> rfl

theorem receive_feedback_partial_header (c : List Nat)
    (reads : List (List Nat)) (h1 : 1 ≤ c.length) (h6 : c.length < 6) :
    receive_feedback (c :: reads) = Except.error () := by
  rcases c with _ | ⟨a, _ | ⟨b, _ | ⟨d, _ | ⟨e, _ | ⟨f, _ | ⟨g, tail⟩⟩⟩⟩⟩⟩
  · simp at h1
  · cases reads <;> rfl
  · cases reads <;> rfl
  · cases reads <;> rfl
  · cases reads <;> rfl
  · cases reads <;> rfl
  · simp only [List.length_cons] at h6
    omega

theorem receive_feedback_empty_body (ts n : Nat) (reads : List (List Nat)) :
    receive_feedback ((be32 ts ++ be16 n) :: [] :: reads) =
      receive_feedback reads := by
  rw [header_chunk_eq]
  simp only [receive_feedback]
  rw [if_neg (by simp), if_neg (by simp)]
  simp [List.take_nil]

theorem receive_feedback_partial_body (ts n : Nat) (b : List Nat)
    (reads : List (List Nat)) (hn : n < 65536)
    (h1 : 1 ≤ b.length) (hlt : b.length < n) :
    receive_feedback ((be32 ts ++ be16 n) :: b :: reads) =
      Except.error () := by
  have htl' : beVal [n / 256 % 256, n % 256] = n := by
    have : beVal (be16 n) = n := beVal_be16 hn
    rw [be16] at this
    exact this
  rw [header_chunk_eq]
  simp only [receive_feedback]
  rw [if_neg (by simp), if_neg (by simp)]
  have e2 : (([ts / 16777216 % 256, ts / 65536 % 256, ts / 256 % 256,
      ts % 256, n / 256 % 256, n % 256] : List Nat).take 6).drop 4 =
      [n / 256 % 256, n % 256] := rfl
  simp only [e2, htl']
  rw [List.take_of_length_le (by omega)]
  rw [if_neg (by
    intro hemp
    rw [List.isEmpty_iff] at hemp
    rw [hemp] at h1
    simp at h1)]
  rw [if_pos (by omega)]

theorem receive_feedback_good_append :
    ∀ (pre : List (Nat × List Nat)) (reads : List (List Nat)),
      (∀ p ∈ pre, p.1 < 4294967296 ∧ p.2.length < 65536 ∧ 1 ≤ p.2.length) →
      receive_feedback (goodChunks pre ++ reads) =
        match receive_feedback reads with
        | Except.ok rs => Except.ok (goodRecords pre ++ rs)
        | Except.error e => Except.error e
  | [], reads, _ => by
    simp only [goodChunks, List.nil_append, goodRecords]
    cases hrf : receive_feedback reads <;> simp
  | (ts, tok) :: pre', reads, hwf => by
    obtain ⟨hts, hn, h1⟩ := hwf (ts, tok) (by simp)
    have hstep := receive_feedback_record_step ts tok
      (goodChunks pre' ++ reads) hts hn h1
    rw [goodChunks, List.cons_append, List.cons_append, hstep]
    have ih := receive_feedback_good_append pre' reads
      (fun p hp => hwf p (by simp [hp]))
    rw [ih]
    cases hrf : receive_feedback reads <;> simp [goodRecords]

/-- C2 amended: an *empty* read at the 6-byte header position — at the very
start or after any number of well-formed records — ends the sequence as
normal end-of-stream with exactly the records read so far (at the very start,
the empty sequence); an *empty* read at the token-body position drops just
that record and the loop continues with the next header read; a *partial*
(non-empty but short) read at either position raises an unhandled unpack
error instead of ending the stream; a stream containing exactly one
well-formed record yields exactly that record and then terminates. -/
theorem receive_feedback_amended (pre : List (Nat × List Nat))
    (reads : List (List Nat)) (c b : List Nat) (ts n : Nat) (tok : List Nat)
    (hwf : ∀ p ∈ pre, p.1 < 4294967296 ∧ p.2.length < 65536 ∧
      1 ≤ p.2.length) :
    receive_feedback [] = Except.ok [] ∧
    receive_feedback (goodChunks pre ++ [] :: reads) =
      Except.ok (goodRecords pre) ∧
    (1 ≤ c.length → c.length < 6 →
      receive_feedback (goodChunks pre ++ c :: reads) = Except.error ()) ∧
    receive_feedback (goodChunks pre ++ (be32 ts ++ be16 n) :: [] :: reads) =
      (match receive_feedback reads with
       | Except.ok rs => Except.ok (goodRecords pre ++ rs)
       | Except.error e => Except.error e) ∧
    (n < 65536 → 1 ≤ b.length → b.length < n →
      receive_feedback (goodChunks pre ++ (be32 ts ++ be16 n) :: b :: reads) =
        Except.error ()) ∧
    (ts < 4294967296 → tok.length < 65536 → 1 ≤ tok.length →
      receive_feedback [be32 ts ++ be16 tok.length, tok] =
        Except.ok [(hexlify tok, ts)]) := by
  refine ⟨rfl, ?_, ?_, ?_, ?_, ?_⟩
  · rw [receive_feedback_good_append pre ([] :: reads) hwf,
      receive_feedback_empty_header]
    simp
  · intro h1 h6
    rw [receive_feedback_good_append pre (c :: reads) hwf,
      receive_feedback_partial_header c reads h1 h6]
  · rw [receive_feedback_good_append pre ((be32 ts ++ be16 n) :: [] :: reads) hwf,
      receive_feedback_empty_body]
  · intro hn h1 hlt
    rw [receive_feedback_good_append pre ((be32 ts ++ be16 n) :: b :: reads) hwf,
      receive_feedback_partial_body ts n b reads hn h1 hlt]
  · intro hts htl h1
    rw [receive_feedback_record_step ts tok [] hts htl h1]
    rfl

/-! ## Concrete instantiations -/

/-- A well-formed device token: 64 hexadecimal characters. -/
def sampleToken : List Char := String.toList
  "aa11aa11aa11aa11aa11aa11aa11aa11aa11aa11aa11aa11aa11aa11aa11aa11"

theorem pack_frame_structure_witness :
    is_valid_token sampleToken = true ∧
    ([104, 101, 108, 108, 111] : List Nat).length < 65536 ∧
    (7 : Nat) < 4294967296 ∧ (1700000000 : Nat) < 4294967296 ∧
    (10 : Nat) < 256 ∧
    ∃ token_bin, unhexlify sampleToken = some token_bin ∧
      token_bin.length = 32 ∧
      pack_frame sampleToken [104, 101, 108, 108, 111] 7 1700000000 10 =
        some (2 :: be32 (3 * 5 + 32 + ([104, 101, 108, 108, 111] : List Nat).length + 4 + 4 + 1) ++
          (frameItem 1 token_bin ++ frameItem 2 [104, 101, 108, 108, 111] ++
           frameItem 3 (be32 7) ++ frameItem 4 (be32 1700000000) ++
           frameItem 5 [10])) ∧
      beVal (be32 (3 * 5 + 32 + ([104, 101, 108, 108, 111] : List Nat).length + 4 + 4 + 1)) =
        (frameItem 1 token_bin ++ frameItem 2 [104, 101, 108, 108, 111] ++
         frameItem 3 (be32 7) ++ frameItem 4 (be32 1700000000) ++
         frameItem 5 [10]).length :=
  ⟨rfl, by decide, by decide, by decide, by decide,
   pack_frame_structure sampleToken [104, 101, 108, 108, 111] 7 1700000000 10
     rfl (by decide) (by decide) (by decide) (by decide)⟩

theorem decode_frame_pack_frame_witness :
    is_valid_token sampleToken = true ∧
    ∃ token_bin frame, unhexlify sampleToken = some token_bin ∧
      pack_frame sampleToken [104, 105] 3 1700000001 5 = some frame ∧
      decode_frame frame = some (token_bin, [104, 105], 3, 1700000001, 5) :=
  ⟨rfl, decode_frame_pack_frame sampleToken [104, 105] 3 1700000001 5 rfl
    (by decide) (by decide) (by decide) (by decide)⟩

theorem send_max_size_boundary_witness :
    is_valid_token sampleToken = true ∧
    send sampleToken [] ⟨5, 0, none⟩ 0 (some 0) 10 (some [1, 2, 3, 4, 5, 6])
        false 0 none (RecvResult.data []) =
      (Except.error .dataOverflow, []) :=
  ⟨rfl,
   (send_max_size_boundary sampleToken [] ⟨5, 0, none⟩ 0 (some 0) 10
     [1, 2, 3, 4, 5, 6] false 0 none (RecvResult.data []) rfl).2 rfl⟩

theorem check_errors_decode_response_witness :
    (9 : Nat) ≠ 8 ∧
    (check_errors (some 1) none (RecvResult.data [9, 0, 0, 0, 0, 1])).result =
      Except.error (.errorResponseCommand 9) ∧
    (check_errors (some 1) none (RecvResult.data [8, 0, 0, 0, 0, 1])).result =
      Except.ok () :=
  ⟨by decide,
   (check_errors_decode_response 9 0 0 0 0 1 none 1).1 (by decide),
   (check_errors_decode_response 9 0 0 0 0 1 none 1).2⟩

theorem check_errors_short_read_witness :
    1 ≤ ([1, 2, 3] : List Nat).length ∧ ([1, 2, 3] : List Nat).length ≤ 5 ∧
    (check_errors (some 2) (some 9) (RecvResult.data [1, 2, 3])).result =
      Except.error .structError :=
  ⟨by decide, by decide,
   check_errors_short_read [1, 2, 3] (some 9) 2 (by decide) (by decide)⟩

theorem send_bulk_batch_witness :
    (∀ tk ∈ [sampleToken], is_valid_token tk = true) ∧
    (send_bulk [sampleToken] [104] ⟨2048, 3600, none⟩ none none 10 100 none
        (RecvResult.data []) =
      ((check_errors none none (RecvResult.data [])).result,
       Event.buildPayload :: Event.openPushSocket ::
         (([sampleToken].enumFrom 0).map
           (loopFrame [104] (expirationTime none 100 3600) 10) ++
          [Event.checkErrors, Event.closeConn])) ∧
     writeIdentifiers
        (send_bulk [sampleToken] [104] ⟨2048, 3600, none⟩ none none 10 100
          none (RecvResult.data [])).2 = List.range 1) :=
  ⟨by intro tk htk; simp at htk; rw [htk]; rfl,
   send_bulk_batch [sampleToken] [104] ⟨2048, 3600, none⟩ none 10 100 none
     (RecvResult.data [])
     (by intro tk htk; simp at htk; rw [htk]; rfl)
     (by decide) (by decide) (by decide) (by decide) (by decide)⟩

theorem validation_vs_io_amended_witness :
    ((send [] [] ⟨2048, 0, none⟩ 0 none 10 none false 0 none
        (RecvResult.data [])).2 = [] ∨
     (send [] [] ⟨2048, 0, none⟩ 0 none 10 none false 0 none
        (RecvResult.data [])).2 = [Event.buildPayload]) ∧
    send_bulk ([sampleToken] ++ [] :: []) [] ⟨2048, 0, none⟩ none (some 5) 10
        0 none (RecvResult.data []) =
      (Except.error .invalidTokenFormat,
       Event.buildPayload :: Event.openPushSocket ::
         (([sampleToken].enumFrom 0).map
           (loopFrame [] (expirationTime (some 5) 0 0) 10) ++
          [Event.closeConn])) :=
  ⟨validation_vs_io_amended.1 [] [] ⟨2048, 0, none⟩ 0 none 10 none false 0
     none (RecvResult.data []) (Or.inl rfl),
   validation_vs_io_amended.2.1 [sampleToken] [] [] [] ⟨2048, 0, none⟩
     (some 5) 10 0 none (RecvResult.data [])
     (by intro tk htk; simp at htk; rw [htk]; rfl)
     rfl (by decide) (by decide) (by decide) (by decide) (by decide)⟩

theorem receive_feedback_amended_witness :
    (∀ p ∈ [((5 : Nat), [(171 : Nat)])],
      p.1 < 4294967296 ∧ p.2.length < 65536 ∧ 1 ≤ p.2.length) ∧
    receive_feedback (goodChunks [(5, [171])] ++ [[]]) =
      Except.ok (goodRecords [(5, [171])]) ∧
    receive_feedback (goodChunks [(5, [171])] ++ [[9]]) = Except.error () ∧
    receive_feedback
        (goodChunks [(5, [171])] ++ [be32 1000000000 ++ be16 2, []]) =
      Except.ok (goodRecords [(5, [171])]) ∧
    receive_feedback
        (goodChunks [(5, [171])] ++ [be32 1000000000 ++ be16 2, [7]]) =
      Except.error () ∧
    receive_feedback [be32 1000000000 ++ be16 2, [171, 205]] =
      Except.ok [(hexlify [171, 205], 1000000000)] :=
  have T := receive_feedback_amended [(5, [171])] [] [9] [7] 1000000000 2
    [171, 205] (by decide)
  ⟨by decide, T.2.1, T.2.2.1 (by decide) (by decide), T.2.2.2.1,
   T.2.2.2.2.1 (by decide) (by decide) (by decide),
   T.2.2.2.2.2 (by decide) (by decide) (by decide)⟩

end Pushjack
